import Mathlib

/-!
Shallow embedding of the flashlight animation library.

Numbers are modelled as rationals. The repository contains two concatenated
variants of flashlight.ts; the second variant (whose `tween` takes a duration
and whose `lerp` clamps the delta to be non-negative) is embedded at top
level, and the first variant's `lerp` is embedded in namespace V1. The
utility `clamp` from util.ts throws when min > max; `clampChecked` embeds the
throwing function and `clamp` embeds its non-throwing branch, which is the
only branch reachable from the library's internal call sites (whose bounds
always satisfy min <= max under the non-negative durations used here).
-/

namespace Flashlight

/-- Message of the error thrown by util.ts clamp when min > max. -/
def invalidRangeMsg : String := "Min value cannot be greater than max value"

/-- util.ts clamp: throws when min > max, else Math.min(Math.max(value, min), max). -/
def clampChecked (value lo hi : ℚ) : Except String ℚ :=
  if lo > hi then Except.error invalidRangeMsg
  else Except.ok (min (max value lo) hi)

/-- The non-throwing branch of util.ts clamp: Math.min(Math.max(value, min), max). -/
def clamp (value lo hi : ℚ) : ℚ := min (max value lo) hi

/-- An Animation is a frame-to-value function carrying a duration
(flashlight.ts: a function with a duration property). -/
structure Animation (T : Type) where
  toFun : ℚ → T
  duration : ℚ

/-- Easing functions map progress to progress (easing.ts). -/
def Easing : Type := ℚ → ℚ

/-- easing.ts linear: the identity easing. -/
def linear : Easing := fun t => t

/-- frameToProgress: clamp(frame / duration, 0, 1). (In ℚ, division by a zero
duration yields 0; the spec marks zero-duration behaviour as an undefined
edge case, and every claim here assumes a positive duration.) -/
def frameToProgress (frame duration : ℚ) : ℚ := clamp (frame / duration) 0 1

/-- progressToFrame: clamp(progress * duration, 0, duration). -/
def progressToFrame (progress duration : ℚ) : ℚ :=
  clamp (progress * duration) 0 duration

/-- elapsedToFrame: Math.floor(elapsedMs / (1000 / fps)). -/
def elapsedToFrame (elapsedMs fps : ℚ) : ℚ := (⌊elapsedMs / (1000 / fps)⌋ : ℤ)

/-- Second-variant lerp (flashlight.ts lines 171-172):
from + Math.max(to - from, 0) * clamp(progress, 0, 1).
The parameters from/to are written a/b because from is a Lean keyword. -/
def lerp (a b progress : ℚ) : ℚ := a + max (b - a) 0 * clamp progress 0 1

namespace V1

/-- First-variant lerp (flashlight.ts lines 33-34):
from + (to - from) * clamp(progress, 0, 1). -/
def lerp (a b progress : ℚ) : ℚ := a + (b - a) * clamp progress 0 1

end V1

/-- tweenWith: animation evaluating lerpFn(easing(frameToProgress(frame, duration))). -/
def tweenWith {T : Type} (lerpFn : ℚ → T) (duration : ℚ) (easing : Easing) :
    Animation T :=
  ⟨fun frame => lerpFn (easing (frameToProgress frame duration)), duration⟩

/-- Second-variant tween(from, to, duration, easing): tweenWith of lerp. -/
def tween (a b duration : ℚ) (easing : Easing) : Animation ℚ :=
  tweenWith (fun progress => lerp a b progress) duration easing

/-- delay: evaluates the wrapped animation at clamp(frame - duration, 0, duration)
(note the ceiling is the delay duration, exactly as in the source) and has
duration duration + anim.duration. -/
def delay {T : Type} (anim : Animation T) (duration : ℚ) : Animation T :=
  ⟨fun frame => anim.toFun (clamp (frame - duration) 0 duration),
   duration + anim.duration⟩

/-- Truncation toward zero, as used by the JavaScript % operator. -/
def jsTrunc (q : ℚ) : ℤ := if 0 ≤ q then ⌊q⌋ else ⌈q⌉

/-- The JavaScript remainder operator on numbers: a - b * trunc(a / b). -/
def jsMod (a b : ℚ) : ℚ := a - b * jsTrunc (a / b)

/-- repeat (the source name is a Lean keyword): duration times * anim.duration;
frames past that evaluate the wrapped animation at its final frame, earlier
frames evaluate it at frame % anim.duration. The claims only concern finite
repeat counts, so times is a rational rather than the Infinity default. -/
def repeatAnim {T : Type} (anim : Animation T) (times : ℚ) : Animation T :=
  let xduration := times * anim.duration
  ⟨fun frame =>
      if xduration ≤ frame then anim.toFun anim.duration
      else anim.toFun (jsMod frame anim.duration),
   xduration⟩

/-- sequence: plays a for frame <= a.duration (inclusive boundary), then b at
frame - a.duration; duration is the sum. -/
def sequence {T : Type} (a b : Animation T) : Animation T :=
  ⟨fun frame => if frame ≤ a.duration then a.toFun frame
                else b.toFun (frame - a.duration),
   a.duration + b.duration⟩

/-- track(first, ...rest): rest.reduce(sequence, first). -/
def track {T : Type} (first : Animation T) (rest : List (Animation T)) :
    Animation T :=
  rest.foldl sequence first

/-- State of the frame.ts job-batching facility: the ordered job queue, the
isFrameScheduled flag, and how many transactFrame flushes are currently
queued with requestAnimationFrame (to count scheduling requests). Jobs are
modelled as inert tokens of a type J; the claims only batch plain jobs. -/
structure FrameState (J : Type) where
  jobs : List J
  isFrameScheduled : Bool
  scheduled : ℕ

/-- frame.ts withFrame: push the job; if no flush is scheduled, set the flag
and request one animation frame for transactFrame. -/
def withFrame {J : Type} (job : J) (s : FrameState J) : FrameState J :=
  if s.isFrameScheduled then { s with jobs := s.jobs ++ [job] }
  else { jobs := s.jobs ++ [job], isFrameScheduled := true,
         scheduled := s.scheduled + 1 }

/-- frame.ts transactFrame, fired by one queued animation frame: shift and run
every queued job in FIFO order (returned as the list of executed jobs, in
execution order), then reset the isFrameScheduled flag. -/
def transactFrame {J : Type} (s : FrameState J) : List J × FrameState J :=
  (s.jobs, { jobs := [], isFrameScheduled := false, scheduled := s.scheduled - 1 })

/-- State of one frame.ts draw-loop controller: its isPlaying flag and the
number of its draw callbacks currently queued with requestAnimationFrame. -/
structure DrawState where
  isPlaying : Bool
  pending : ℕ

/-- The controller's pause: set isPlaying to false (an already-requested
animation frame stays queued). -/
def drawPause (s : DrawState) : DrawState := { s with isPlaying := false }

/-- The controller's play: set isPlaying to true and request an animation frame. -/
def drawPlay (s : DrawState) : DrawState :=
  { isPlaying := true, pending := s.pending + 1 }

/-- One rendering tick firing a queued draw callback of frame.ts draw: with
nothing queued, nothing happens; the callback first checks isPlaying and
returns without invoking the user callback or re-arming when false;
otherwise it invokes the user callback (Bool result true) and re-arms one
animation frame. -/
def drawTick (s : DrawState) : Bool × DrawState :=
  if s.pending = 0 then (false, s)
  else if s.isPlaying then (true, { isPlaying := true, pending := s.pending - 1 + 1 })
  else (false, { isPlaying := false, pending := s.pending - 1 })

/-- Run n rendering ticks, counting how many invoked the user callback. -/
def drawTicks : ℕ → DrawState → ℕ × DrawState
  | 0, s => (0, s)
  | n + 1, s =>
      let t := drawTick s
      let r := drawTicks n t.2
      ((if t.1 then 1 else 0) + r.1, r.2)

/-- The virtual frame computed by a tick of frame.ts draw started at time
start with the tick at time now: elapsedToFrame(now - start, fps). -/
def drawFrame (start now fps : ℚ) : ℚ := elapsedToFrame (now - start) fps

/-- The virtual frame computed by a tick of the draw variant in the unnamed
frame module: it calls elapsedToFrame(start, now, fps), but elapsedToFrame
takes two parameters, so JavaScript binds elapsedMs = start, fps = now and
drops the third argument. -/
def drawFrameAlt (start now fps : ℚ) : ℚ := elapsedToFrame start now

/-- One rendering tick of frame.ts play at a given elapsed time: if elapsed
exceeds the animation's duration it returns without invoking the callback or
re-arming (none); otherwise the callback receives the animation's value at
elapsedToFrame(elapsed, fps) (some value) and the loop re-arms. -/
def playTick {T : Type} (animation : Animation T) (elapsed fps : ℚ) : Option T :=
  if animation.duration < elapsed then none
  else some (animation.toFun (elapsedToFrame elapsed fps))

end Flashlight

open Flashlight

/-- clamp is monotone in the clamped value. -/
theorem clamp_mono {p q lo hi : ℚ} (h : p ≤ q) : clamp p lo hi ≤ clamp q lo hi :=
  min_le_min (max_le_max h le_rfl) le_rfl

/-- Truncation toward zero fixes the integers. -/
theorem jsTrunc_intCast (k : ℤ) : jsTrunc (k : ℚ) = k := by
  unfold jsTrunc
  split <;> simp

/-- An exact integer multiple of the modulus has remainder zero, also in
JavaScript remainder semantics. -/
theorem jsMod_int_mul (k : ℤ) (d : ℚ) (hd : d ≠ 0) : jsMod ((k : ℚ) * d) d = 0 := by
  unfold jsMod
  rw [mul_div_assoc, div_self hd, mul_one, jsTrunc_intCast]
  ring

/-- C9: clamp(value, min, max) errors exactly when min > max; for min <= max
it returns a value in [min, max] inclusive, and returns the value itself
whenever it already lies in [min, max]. -/
theorem clamp_spec (v lo hi : ℚ) :
    (hi < lo → clampChecked v lo hi = Except.error invalidRangeMsg) ∧
    (lo ≤ hi → clampChecked v lo hi = Except.ok (clamp v lo hi) ∧
      lo ≤ clamp v lo hi ∧ clamp v lo hi ≤ hi) ∧
    (lo ≤ v → v ≤ hi → clampChecked v lo hi = Except.ok v) := by
  refine ⟨fun h => ?_, fun h => ?_, fun h1 h2 => ?_⟩
  · rw [clampChecked, if_pos h]
  · refine ⟨by rw [clampChecked, if_neg (not_lt.mpr h), clamp], ?_, ?_⟩
    · exact le_min (le_max_right v lo) h
    · exact min_le_right _ hi
  · have h : ¬ hi < lo := not_lt.mpr (le_trans h1 h2)
    rw [clampChecked, if_neg h]
    rw [max_eq_left h1, min_eq_left h2]

/-- Witness for C9 at value 5 in range [0, 10]. -/
theorem clamp_spec_witness : clampChecked 5 0 10 = Except.ok 5 :=
  (clamp_spec 5 0 10).2.2 (by norm_num) (by norm_num)

/-- C3 counterexample: the second lerp variant clamps to - from to be
non-negative, so lerp(1, 0, 1) is 1, not the claimed 0. -/
theorem lerp_one_decreasing_counterexample : lerp 1 0 1 ≠ 0 := by
  norm_num [lerp, clamp]

/-- C3 amended: the first lerp variant satisfies lerp(a,b,0) = a and
lerp(a,b,1) = b for all a, b, and the second variant satisfies
lerp(a,b,0) = a for all a, b but lerp(a,b,1) = b only for b >= a; both
variants are monotonically non-decreasing in progress when b >= a. -/
theorem lerp_variants_spec :
    (∀ a b : ℚ, V1.lerp a b 0 = a ∧ V1.lerp a b 1 = b ∧ lerp a b 0 = a) ∧
    (∀ a b : ℚ, a ≤ b → lerp a b 1 = b) ∧
    (∀ a b p q : ℚ, a ≤ b → p ≤ q →
      V1.lerp a b p ≤ V1.lerp a b q ∧ lerp a b p ≤ lerp a b q) := by
  refine ⟨fun a b => ⟨?_, ?_, ?_⟩, fun a b hab => ?_, fun a b p q hab hpq => ⟨?_, ?_⟩⟩
  · norm_num [V1.lerp, clamp]
  · norm_num [V1.lerp, clamp]
  · norm_num [lerp, clamp]
  · rw [lerp, max_eq_left (sub_nonneg.mpr hab)]
    norm_num [clamp]
  · exact add_le_add_left
      (mul_le_mul_of_nonneg_left (clamp_mono hpq) (sub_nonneg.mpr hab)) a
  · exact add_le_add_left
      (mul_le_mul_of_nonneg_left (clamp_mono hpq) (le_max_right (b - a) 0)) a

/-- Witness for C3 amended, exercising each hypothesis at concrete inputs. -/
theorem lerp_variants_spec_witness :
    lerp 1 3 1 = 3 ∧ V1.lerp 2 5 0 = 2 ∧ lerp 0 10 (1/4) ≤ lerp 0 10 (1/2) :=
  ⟨lerp_variants_spec.2.1 1 3 (by norm_num), (lerp_variants_spec.1 2 5).1,
   (lerp_variants_spec.2.2 0 10 (1/4) (1/2) (by norm_num) (by norm_num)).2⟩

/-- C2 counterexample: tween built from the second-variant lerp flattens
decreasing interpolation, so tween(1, 0, 2, linear) yields 1 at frame 2
(the claim says the value is to = 0) and 1 at frame 1 (the claim says the
midpoint 1/2). -/
theorem tween_decreasing_counterexample :
    (tween 1 0 2 linear).toFun 2 ≠ 0 ∧ (tween 1 0 2 linear).toFun 1 ≠ (1 + 0) / 2 := by
  constructor <;>
    norm_num [tween, tweenWith, linear, frameToProgress, lerp, clamp]

/-- C2 amended: for tween(from, to, duration, linear) with duration > 0,
the value at frame 0 is from for all inputs; when to >= from, the value at
frame duration is to and the value at frame duration/2 is the midpoint
(from + to) / 2. -/
theorem tween_linear_endpoints (a b d : ℚ) (hd : 0 < d) :
    (tween a b d linear).toFun 0 = a ∧
    (a ≤ b → (tween a b d linear).toFun d = b ∧
      (tween a b d linear).toFun (d / 2) = (a + b) / 2) := by
  have hd0 : d ≠ 0 := ne_of_gt hd
  have hhalf : d / 2 / d = 1 / 2 := by
    field_simp
    ring
  refine ⟨?_, fun hab => ⟨?_, ?_⟩⟩
  · norm_num [tween, tweenWith, linear, frameToProgress, lerp, clamp]
  · rw [show (tween a b d linear).toFun d
        = lerp a b (clamp (d / d) 0 1) from rfl, div_self hd0]
    rw [lerp, max_eq_left (sub_nonneg.mpr hab)]
    norm_num [clamp]
  · rw [show (tween a b d linear).toFun (d / 2)
        = lerp a b (clamp (d / 2 / d) 0 1) from rfl, hhalf]
    rw [lerp, max_eq_left (sub_nonneg.mpr hab)]
    norm_num [clamp]
    ring

/-- Witness for C2 amended at tween(0, 100, 60, linear). -/
theorem tween_linear_endpoints_witness :
    (tween 0 100 60 linear).toFun 0 = 0 ∧
    (tween 0 100 60 linear).toFun 60 = 100 ∧
    (tween 0 100 60 linear).toFun (60 / 2) = (0 + 100) / 2 :=
  ⟨(tween_linear_endpoints 0 100 60 (by norm_num)).1,
   ((tween_linear_endpoints 0 100 60 (by norm_num)).2 (by norm_num)).1,
   ((tween_linear_endpoints 0 100 60 (by norm_num)).2 (by norm_num)).2⟩

/-- C1 (code bug): delay clamps the inner frame with the delay duration as
the ceiling, so delay(tween(0, 100, 10, linear), 2), whose duration is 12,
evaluates the wrapped animation at frame 2 when asked for frame 12 (value
20), while the wrapped animation at frame 12 - 2 = 10 is 100: the wrapped
animation is frozen prematurely instead of being evaluated at frame - delay. -/
theorem delay_bug_evaluation :
    (delay (tween 0 100 10 linear) 2).duration = 12 ∧
    (delay (tween 0 100 10 linear) 2).toFun 12 = 20 ∧
    (tween 0 100 10 linear).toFun (12 - 2) = 100 := by
  have h1 : clamp (12 - 2) 0 2 = 2 := by norm_num [clamp]
  refine ⟨by norm_num [delay, tween, tweenWith], ?_, ?_⟩
  · rw [show (delay (tween 0 100 10 linear) 2).toFun 12
        = (tween 0 100 10 linear).toFun (clamp (12 - 2) 0 2) from rfl, h1]
    norm_num [tween, tweenWith, linear, frameToProgress, lerp, clamp]
  · norm_num [tween, tweenWith, linear, frameToProgress, lerp, clamp]

/-- C4: repeat(a, n) for finite positive n has duration n * a.duration,
freezes at the wrapped animation's final frame for frames at or past
n * a.duration, evaluates the wrapped animation at frame % a.duration
before that, and in particular evaluates it at frame 0 at every exact
multiple k * a.duration with k < n. -/
theorem repeat_spec {T : Type} (a : Animation T) (n : ℕ) (hn : 1 ≤ n)
    (hd : 0 < a.duration) :
    (repeatAnim a (n : ℚ)).duration = (n : ℚ) * a.duration ∧
    (∀ f : ℚ, (n : ℚ) * a.duration ≤ f →
      (repeatAnim a (n : ℚ)).toFun f = a.toFun a.duration) ∧
    (∀ f : ℚ, f < (n : ℚ) * a.duration →
      (repeatAnim a (n : ℚ)).toFun f = a.toFun (jsMod f a.duration)) ∧
    (∀ k : ℤ, (k : ℚ) < (n : ℚ) →
      (repeatAnim a (n : ℚ)).toFun ((k : ℚ) * a.duration) = a.toFun 0) := by
  refine ⟨rfl, fun f hf => ?_, fun f hf => ?_, fun k hk => ?_⟩
  · simp only [repeatAnim]
    rw [if_pos hf]
  · simp only [repeatAnim]
    rw [if_neg (not_le.mpr hf)]
  · have hlt : (k : ℚ) * a.duration < (n : ℚ) * a.duration :=
      mul_lt_mul_of_pos_right hk hd
    simp only [repeatAnim]
    rw [if_neg (not_le.mpr hlt), jsMod_int_mul k _ (ne_of_gt hd)]

/-- Witness for C4 at repeat(tween(0, 100, 10, linear), 2). -/
theorem repeat_spec_witness :
    (repeatAnim (tween 0 100 10 linear) ((2 : ℕ) : ℚ)).duration
      = ((2 : ℕ) : ℚ) * (tween 0 100 10 linear).duration ∧
    (repeatAnim (tween 0 100 10 linear) ((2 : ℕ) : ℚ)).toFun
        (((1 : ℤ) : ℚ) * (tween 0 100 10 linear).duration)
      = (tween 0 100 10 linear).toFun 0 :=
  ⟨(repeat_spec (tween 0 100 10 linear) 2 (by norm_num)
      (by norm_num [tween, tweenWith])).1,
   (repeat_spec (tween 0 100 10 linear) 2 (by norm_num)
      (by norm_num [tween, tweenWith])).2.2.2 1 (by norm_num)⟩

/-- C5 counterexample: with b.duration = 0, track(a, b) at frame
a.duration + b.duration takes the inclusive first branch and returns a's
value (0), not b's value at b.duration (5); and with a.duration = -1,
track(a, b) at frame 0 takes the second branch and returns b's value (5),
not a's value at frame 0 (0). -/
theorem track_boundary_counterexample :
    (track (⟨fun _ => (0 : ℚ), 1⟩ : Animation ℚ) [⟨fun _ => 5, 0⟩]).toFun (1 + 0) ≠ 5 ∧
    (track (⟨fun _ => (0 : ℚ), -1⟩ : Animation ℚ) [⟨fun _ => 5, 3⟩]).toFun 0 ≠ 0 := by
  constructor <;> norm_num [track, Flashlight.sequence]

/-- C5 amended: track(a, b) has duration a.duration + b.duration, evaluates
a at f for every frame f <= a.duration (inclusive boundary) and b at
f - a.duration for every frame f > a.duration; consequently it equals a at
frame 0 when a.duration is non-negative, and equals b at b.duration at frame
a.duration + b.duration when b.duration is positive. -/
theorem track_spec {T : Type} (a b : Animation T) :
    (track a [b]).duration = a.duration + b.duration ∧
    (∀ f : ℚ, f ≤ a.duration → (track a [b]).toFun f = a.toFun f) ∧
    (∀ f : ℚ, a.duration < f → (track a [b]).toFun f = b.toFun (f - a.duration)) ∧
    (0 ≤ a.duration → (track a [b]).toFun 0 = a.toFun 0) ∧
    (0 < b.duration →
      (track a [b]).toFun (a.duration + b.duration) = b.toFun b.duration) := by
  refine ⟨rfl, fun f hf => ?_, fun f hf => ?_, fun h => ?_, fun h => ?_⟩
  · simp only [track, List.foldl, Flashlight.sequence]
    rw [if_pos hf]
  · simp only [track, List.foldl, Flashlight.sequence]
    rw [if_neg (not_le.mpr hf)]
  · simp only [track, List.foldl, Flashlight.sequence]
    rw [if_pos h]
  · have hgt : a.duration < a.duration + b.duration := lt_add_of_pos_right _ h
    simp only [track, List.foldl, Flashlight.sequence]
    rw [if_neg (not_le.mpr hgt), add_sub_cancel_left]

/-- Witness for C5 amended at two concrete animations of durations 10 and 5. -/
theorem track_spec_witness :
    (track (⟨fun f => f, 10⟩ : Animation ℚ) [⟨fun f => f + 100, 5⟩]).toFun (10 + 5)
      = 105 := by
  have h := (track_spec (⟨fun f => f, 10⟩ : Animation ℚ)
      ⟨fun f => f + 100, 5⟩).2.2.2.2 (by norm_num)
  norm_num at h ⊢
  exact h

/-- C6: three synchronous withFrame calls from the idle state request exactly
one flush; that single flush runs the three jobs in enqueue order and resets
the isFrameScheduled flag (and empties the queue). -/
theorem withFrame_coalesces (J : Type) (j1 j2 j3 : J) :
    (withFrame j3 (withFrame j2 (withFrame j1 (⟨[], false, 0⟩ : FrameState J)))).scheduled = 1 ∧
    (transactFrame (withFrame j3 (withFrame j2 (withFrame j1
        (⟨[], false, 0⟩ : FrameState J))))).1 = [j1, j2, j3] ∧
    (transactFrame (withFrame j3 (withFrame j2 (withFrame j1
        (⟨[], false, 0⟩ : FrameState J))))).2.isFrameScheduled = false ∧
    (transactFrame (withFrame j3 (withFrame j2 (withFrame j1
        (⟨[], false, 0⟩ : FrameState J))))).2.jobs = [] :=
  ⟨rfl, rfl, rfl, rfl⟩

/-- Witness for C6 with three natural-number job tokens. -/
theorem withFrame_coalesces_witness :
    (withFrame 3 (withFrame 2 (withFrame 1 (⟨[], false, 0⟩ : FrameState ℕ)))).scheduled = 1 ∧
    (transactFrame (withFrame 3 (withFrame 2 (withFrame 1
        (⟨[], false, 0⟩ : FrameState ℕ))))).1 = [1, 2, 3] ∧
    (transactFrame (withFrame 3 (withFrame 2 (withFrame 1
        (⟨[], false, 0⟩ : FrameState ℕ))))).2.isFrameScheduled = false ∧
    (transactFrame (withFrame 3 (withFrame 2 (withFrame 1
        (⟨[], false, 0⟩ : FrameState ℕ))))).2.jobs = [] :=
  withFrame_coalesces ℕ 1 2 3

/-- C7 (code bug in one variant): a tick of the frame.ts draw loop started
at any time t0, firing at t0 + 33ms with fps 60, computes virtual frame
floor(33 / (1000/60)) = 1; the unnamed-module draw variant instead passes
(start, now, fps) to the two-parameter elapsedToFrame, so with t0 = 0 the
same tick computes floor(0 / (1000/33)) = 0 instead of 1. -/
theorem draw_virtual_frame :
    (∀ t0 : ℚ, drawFrame t0 (t0 + 33) 60 = 1) ∧ drawFrameAlt 0 33 60 = 0 := by
  constructor
  · intro t0
    rw [drawFrame, show t0 + 33 - t0 = (33 : ℚ) by ring, elapsedToFrame]
    norm_num
  · rw [drawFrameAlt, elapsedToFrame]
    norm_num

/-- C8 counterexample: at elapsed 30ms with fps 60, play evaluates
tween(0, 100, 60, linear) at virtual frame floor(30 / (1000/60)) = 1,
delivering 100 * (1/60) = 5/3 to the callback, not the claimed 50. -/
theorem play_values_counterexample :
    playTick (tween 0 100 60 linear) 30 60 ≠ some 50 := by
  have h30 : elapsedToFrame 30 60 = 1 := by
    rw [elapsedToFrame]
    norm_num
  rw [playTick, if_neg (by norm_num [tween, tweenWith]), h30]
  norm_num [tween, tweenWith, linear, frameToProgress, lerp, clamp]

/-- C8 amended: for play(tween(0, 100, 60, linear), cb) with fps 60 and
ticks at elapsed 0, 30, 60 and 90 milliseconds, the callback receives the
animation's value at the virtual frame on each of the first three ticks,
namely 0, 5/3 and 5, and is not invoked at elapsed 90 (past the duration),
after which the loop stops re-arming. -/
theorem play_tick_values :
    playTick (tween 0 100 60 linear) 0 60 = some 0 ∧
    playTick (tween 0 100 60 linear) 30 60 = some (5 / 3) ∧
    playTick (tween 0 100 60 linear) 60 60 = some 5 ∧
    playTick (tween 0 100 60 linear) 90 60 = none := by
  have h0 : elapsedToFrame 0 60 = 0 := by
    rw [elapsedToFrame]
    norm_num
  have h30 : elapsedToFrame 30 60 = 1 := by
    rw [elapsedToFrame]
    norm_num
  have h60 : elapsedToFrame 60 60 = 3 := by
    rw [elapsedToFrame]
    norm_num
  refine ⟨?_, ?_, ?_, ?_⟩
  · rw [playTick, if_neg (by norm_num [tween, tweenWith]), h0]
    norm_num [tween, tweenWith, linear, frameToProgress, lerp, clamp]
  · rw [playTick, if_neg (by norm_num [tween, tweenWith]), h30]
    norm_num [tween, tweenWith, linear, frameToProgress, lerp, clamp]
  · rw [playTick, if_neg (by norm_num [tween, tweenWith]), h60]
    norm_num [tween, tweenWith, linear, frameToProgress, lerp, clamp]
  · rw [playTick, if_pos (by norm_num [tween, tweenWith])]

/-- A tick arriving while the draw loop is paused invokes no callback and
leaves the loop paused. -/
theorem drawTick_paused {s : DrawState} (hs : s.isPlaying = false) :
    (drawTick s).1 = false ∧ (drawTick s).2.isPlaying = false := by
  rw [drawTick]
  split
  · exact ⟨rfl, hs⟩
  · rw [hs]
    simp

/-- No sequence of ticks starting from a paused draw loop ever invokes the
callback. -/
theorem drawTicks_paused (n : ℕ) :
    ∀ s : DrawState, s.isPlaying = false →
      (drawTicks n s).1 = 0 ∧ (drawTicks n s).2.isPlaying = false := by
  induction n with
  | zero => exact fun s hs => ⟨rfl, hs⟩
  | succ n ih =>
      intro s hs
      have h1 := drawTick_paused hs
      have h2 := ih (drawTick s).2 h1.2
      simp [drawTicks, h1.1, h2.1, h2.2]

/-- C10: after pause, no later tick ever invokes the per-tick callback — not
even once: the already-requested tick fires (consuming one pending animation
frame without re-arming) but the isPlaying check returns first, and the loop
stays paused forever. -/
theorem pause_stops_callbacks (s : DrawState) (n : ℕ) :
    (drawTicks n (drawPause s)).1 = 0 ∧
    (drawTick (drawPause s)).1 = false ∧
    (drawTick (drawPause s)).2.isPlaying = false ∧
    (0 < s.pending → (drawTick (drawPause s)).2.pending = s.pending - 1) := by
  have hp : (drawPause s).isPlaying = false := rfl
  refine ⟨(drawTicks_paused n (drawPause s) hp).1, (drawTick_paused hp).1,
    (drawTick_paused hp).2, fun h => ?_⟩
  have hne : s.pending ≠ 0 := Nat.pos_iff_ne_zero.mp h
  rw [drawTick]
  rw [show (drawPause s).pending = s.pending from rfl,
    show (drawPause s).isPlaying = false from rfl]
  rw [if_neg hne]
  simp

/-- Witness for C10: a paused loop with two pending frames sees no callback
in three ticks, and the first tick consumes a pending frame. -/
theorem pause_stops_callbacks_witness :
    (drawTicks 3 (drawPause ⟨true, 2⟩)).1 = 0 ∧
    (drawTick (drawPause ⟨true, 2⟩)).2.pending = 2 - 1 :=
  ⟨(pause_stops_callbacks ⟨true, 2⟩ 3).1,
   (pause_stops_callbacks ⟨true, 2⟩ 3).2.2.2 (by norm_num)⟩
